import Mathlib

/-
  Shallow embedding of `src/hooks/useAuth.tsx` (the single source file of the
  repository): an OAuth2 implicit-grant session manager for a streaming
  platform.  The hook keeps four pieces of React state (`user`, `userToken`,
  `isLoggingIn`, `isLoggingOut`), two persisted AsyncStorage entries
  (`@twitch:token`, `@twitch:user`), and mutates the HTTP client's default
  headers (`Authorization`, `Client-Id`) as a process-wide side effect.

  The three operations — `signIn`, `signOut`, and the startup-restore effect —
  are each a straight-line sequence of awaited external calls.  We embed them
  as pure functions from an environment (the outcomes of the external calls:
  the interactive authorization flow, the profile request, the revocation
  request, the token-validation request) and a pre-state to a result, a
  post-state, and a trace of the external endpoints invoked.  React state
  setters become record updates; storage reads/writes act on the `storage`
  component of the state.
-/

namespace UseAuth

/-- User record.  The TypeScript interface `User` declares `id`,
`display_name`, `email`, `profile_image_url`.  The runtime record returned by
the profile endpoint (`data.data[0]`), which is what actually gets stored and
later read back, additionally carries a `login` field: the startup effect
reads `userLogged?.login` from the parsed stored record, and the validation
endpoint returns a body with a `login` field (spec section 6).  We model the
record with all five fields. -/
structure User where
  id : Int
  display_name : String
  email : String
  profile_image_url : String
  login : String
deriving Repr, DecidableEq

/-- Params of the `startAsync` redirect result (TS interface
`StartAsyncResponse.params`). -/
structure AuthParams where
  access_token : String
  scope : String
  state : String
  token_type : String
deriving Repr, DecidableEq

/-- Result of the interactive authorization flow (TS interface
`StartAsyncResponse`; the always-null `authentication` and `errorCode` fields
are omitted). -/
structure StartAsyncResponse where
  params : AuthParams
  type : String
  url : String
deriving Repr, DecidableEq

/-- The HTTP client's mutable default headers (`api.defaults.headers.common`).
`none` models an absent entry (after `delete`). -/
structure ApiHeaders where
  authorization : Option String := none
  clientId : Option String := none
deriving Repr, DecidableEq

/-- The two persisted AsyncStorage entries, keys `@twitch:token` and
`@twitch:user`.  The user entry holds `JSON.stringify` of the profile record
and is read back with `JSON.parse`; since stringify/parse round-trips these
records, we store the record itself rather than its serialization. -/
structure Storage where
  token : Option String := none
  user : Option User := none
deriving Repr, DecidableEq

/-- The full state owned by the `AuthProvider`: the four React state cells,
the persisted storage, and the process-wide default headers.  `user = none`
models the empty `{} as User` object; `userToken = ""` is the empty token. -/
structure AuthState where
  isLoggingIn : Bool := false
  isLoggingOut : Bool := false
  user : Option User := none
  userToken : String := ""
  storage : Storage := {}
  headers : ApiHeaders := {}
deriving Repr, DecidableEq

/-- Errors with which `signIn` rejects.  `accessDenied` models
`new Error("Access denied")` from the non-success branch; `profileFetch`
models the inner `throw new Error(e)` wrapping the cause of a failed profile
request.  The outer `catch` block rethrows (`throw new Error(error)`), which
preserves which failure occurred; we model the rethrow as the identity on the
error value. -/
inductive AuthError where
  | accessDenied
  | profileFetch (cause : String)
deriving Repr, DecidableEq

/-- External network endpoints invoked by an operation, in order.  Storage
reads/writes act on the state directly and are not traced. -/
inductive ExtCall where
  | startAuth (authUrl : String)
  | getUsers (clientId : String) (authorizationHeader : String)
  | revoke (token : String) (clientId : String)
  | validate (authorizationHeader : String)
deriving Repr, DecidableEq

/-- The `SCOPE` constant:
`encodeURI(["openid", "user:read:email", "user:read:follows"].join(" "))`. -/
def SCOPE : String := "openid%20user:read:email%20user:read:follows"

/-- The assembled authorization URL, from `twitchEndpoints.authorization`,
`CLIENT_ID`, `REDIRECT_URI`, `RESPONSE_TYPE = "token"`, `SCOPE`,
`FORCE_VERIFY = true` and the generated `STATE`. -/
def authUrl (clientId redirectUri st : String) : String :=
  "https://id.twitch.tv/oauth2/authorize?client_id=" ++ clientId ++
    "&redirect_uri=" ++ redirectUri ++ "&response_type=token&scope=" ++ SCOPE ++
    "&force_verify=true&state=" ++ st

/-- Environment of one `signIn` run: the redirect URI produced by
`makeRedirectUri`, the random state produced by `generateRandom(30)`, the
result of `startAsync`, and the outcome of the `api.get("/users")` profile
request (on success, the first record `data.data[0]` of the response body; on
failure, the underlying error). -/
structure SignInEnv where
  redirectUri : String
  state30 : String
  authResponse : StartAsyncResponse
  profileResult : Except String User
deriving Repr

/-- First statement of `signIn`: `setIsLoggingIn(true)`. -/
def signInStart (s : AuthState) : AuthState :=
  { s with isLoggingIn := true }

/-- On a success result, `signIn` writes the bearer token into the default
`Authorization` header before the profile request:
`api.defaults.headers.common["Authorization"] = `Bearer ...``. -/
def signInWithAuthHeader (tok : String) (s : AuthState) : AuthState :=
  { s with headers := { s.headers with authorization := some ("Bearer " ++ tok) } }

/-- The commit after a successful profile request: `setUser(data.data[0])`,
`setUserToken(access_token)`, and the two `AsyncStorage.setItem` writes. -/
def signInCommit (tok : String) (u : User) (s : AuthState) : AuthState :=
  { s with user := some u, userToken := tok,
           storage := { token := some tok, user := some u } }

/-- The `finally` block of `signIn`: `setIsLoggingIn(false)`. -/
def signInFinish (s : AuthState) : AuthState :=
  { s with isLoggingIn := false }

/-- One run of `signIn`, given the outcomes of its external calls.  Returns
the promise outcome, the post-state, and the trace of network calls.  Control
flow follows the source: set the in-flight flag, launch the authorization
flow; on `type === "success"` set the Authorization header and request the
profile (committing session and storage on success, rejecting with the
wrapped cause on failure); otherwise reject with "Access denied"; the
`finally` block clears the in-flight flag on every path.  The commented-out
comparison of `response.params.state` with the generated `STATE` is dead
code: the returned state is never read. -/
def signIn (clientId : String) (env : SignInEnv) (s : AuthState) :
    Except AuthError Unit × AuthState × List ExtCall :=
  let s1 := signInStart s
  let url := authUrl clientId env.redirectUri env.state30
  if env.authResponse.type = "success" then
    let tok := env.authResponse.params.access_token
    let s2 := signInWithAuthHeader tok s1
    match env.profileResult with
    | .ok u =>
        (.ok (), signInFinish (signInCommit tok u s2),
         [.startAuth url, .getUsers clientId ("Bearer " ++ tok)])
    | .error e =>
        (.error (.profileFetch e), signInFinish s2,
         [.startAuth url, .getUsers clientId ("Bearer " ++ tok)])
  else
    (.error .accessDenied, signInFinish s1, [.startAuth url])

/-- The states of a `signIn` run at its suspension points (awaiting
`startAsync`, awaiting the profile request, awaiting the storage writes), in
order.  Built from the same intermediate states as `signIn`. -/
def signInPending (env : SignInEnv) (s : AuthState) : List AuthState :=
  let s1 := signInStart s
  if env.authResponse.type = "success" then
    let tok := env.authResponse.params.access_token
    let s2 := signInWithAuthHeader tok s1
    match env.profileResult with
    | .ok u => [s1, s2, signInCommit tok u s2]
    | .error _ => [s1, s2]
  else
    [s1]

/-- First statement of `signOut`: `setIsLoggingOut(true)`. -/
def signOutStart (s : AuthState) : AuthState :=
  { s with isLoggingOut := true }

/-- The local teardown in `signOut`'s `finally` block: `setUser({})`,
`setUserToken("")`, `delete api.defaults.headers.common["Authorization"]`. -/
def signOutClearLocal (s : AuthState) : AuthState :=
  { s with user := none, userToken := "",
           headers := { s.headers with authorization := none } }

/-- The two `AsyncStorage.removeItem` calls in `signOut`'s `finally` block. -/
def signOutClearStorage (s : AuthState) : AuthState :=
  { s with storage := { token := none, user := none } }

/-- Last statement of `signOut`'s `finally` block: `setIsLoggingOut(false)`. -/
def signOutFinish (s : AuthState) : AuthState :=
  { s with isLoggingOut := false }

/-- One run of `signOut`, given the outcome of the `revokeAsync` call.  The
`catch` block swallows any revocation error, and the `finally` block
unconditionally performs the local teardown, so the post-state does not
depend on `revokeResult` and the promise always resolves.  Returns the
post-state and the trace. -/
def signOut (clientId : String) (_revokeResult : Except String Unit)
    (s : AuthState) : AuthState × List ExtCall :=
  (signOutFinish (signOutClearStorage (signOutClearLocal (signOutStart s))),
   [.revoke s.userToken clientId])

/-- The states of a `signOut` run at its suspension points (awaiting
`revokeAsync`, awaiting the two `AsyncStorage.removeItem` calls). -/
def signOutPending (s : AuthState) : List AuthState :=
  [signOutStart s,
   signOutClearLocal (signOutStart s),
   signOutClearStorage (signOutClearLocal (signOutStart s))]

/-- The header-sync effect (`useEffect` keyed on `userToken`): always writes
the `Client-Id` default header, and writes the `Authorization` header only
when `userToken` is truthy (a non-empty string). -/
def headerSyncEffect (clientId : String) (s : AuthState) : AuthState :=
  let h := { s.headers with clientId := some clientId }
  if s.userToken ≠ "" then
    { s with headers := { h with authorization := some ("Bearer " ++ s.userToken) } }
  else
    { s with headers := h }

/-- Body of the token-validation response: the code reads `data.login`, and
the validation endpoint returns a JSON body containing a `login` field. -/
structure ValidateData where
  login : String
deriving Repr, DecidableEq

/-- One run of the startup-restore effect (`useEffect` with empty dependency
list), given the outcome of the validation request.  It reads the two
persisted entries; when the stored token is truthy (present and non-empty) it
sets `isLoggingIn`, awaits the validation call, restores the session when the
response's `login` equals the stored user's `login` (JS
`data.login === userLogged?.login`: false when no user is stored), clears the
in-memory session and both persisted entries when the call fails, and resets
`isLoggingIn` in the `finally` block.  With no truthy stored token it is a
no-op.  Returns the post-state and the trace. -/
def startupRestore (validateResult : Except String ValidateData)
    (s : AuthState) : AuthState × List ExtCall :=
  match s.storage.token with
  | none => (s, [])
  | some t =>
    if t = "" then (s, [])
    else
      let s1 := { s with isLoggingIn := true }
      match validateResult with
      | .ok data =>
          let s2 :=
            if s.storage.user.map User.login = some data.login then
              { s1 with userToken := t, user := s.storage.user }
            else s1
          ({ s2 with isLoggingIn := false }, [.validate ("OAuth " ++ t)])
      | .error _ =>
          ({ s1 with userToken := "", user := none,
                     storage := { token := none, user := none },
                     isLoggingIn := false },
           [.validate ("OAuth " ++ t)])

/-- The documented session invariant: the in-memory `user` and `userToken`
are both present or both absent. -/
def sessionConsistent (s : AuthState) : Prop :=
  s.user = none ↔ s.userToken = ""

instance (s : AuthState) : Decidable (sessionConsistent s) := by
  unfold sessionConsistent
  infer_instance

/-- A sample profile record used to instantiate theorems with hypotheses. -/
def sampleUser : User :=
  { id := 1, display_name := "Ada", email := "ada@example.com",
    profile_image_url := "https://img.example.com/a.png", login := "ada" }

/-- A sample successful authorization-flow result. -/
def sampleAuthOk : StartAsyncResponse :=
  { params := { access_token := "tok123", scope := SCOPE, state := "ret-state",
                token_type := "bearer" },
    type := "success", url := "https://redir.example.com#frag" }

/-- A sample `signIn` environment in which both external calls succeed. -/
def sampleEnvOk : SignInEnv :=
  { redirectUri := "https://redir.example.com", state30 := "SSSSSSSSSSSSSSSSSSSSSSSSSSSSSS",
    authResponse := sampleAuthOk, profileResult := .ok sampleUser }

/-- The initial provider state: flags false, empty user and token, empty
storage and headers. -/
def s0 : AuthState := {}

/-- A state holding a persisted session, as left by a successful `signIn`. -/
def sStored : AuthState :=
  { storage := { token := some "tok123", user := some sampleUser } }

/-- C1: after a `signIn` run in which the authorization flow returns a
success result (carrying a bearer token) and the profile request succeeds,
the promise resolves, the in-memory user and token are both non-empty, and
the persisted token entry and user entry exist and match the in-memory token
and user (the user entry holding the record whose serialization was
written). -/
theorem signIn_success_commits_session (clientId : String) (env : SignInEnv)
    (s : AuthState) (u : User)
    (hok : env.authResponse.type = "success")
    (hprof : env.profileResult = .ok u)
    (htok : env.authResponse.params.access_token ≠ "") :
    (signIn clientId env s).1 = .ok () ∧
    (signIn clientId env s).2.1.user = some u ∧
    (signIn clientId env s).2.1.user ≠ none ∧
    (signIn clientId env s).2.1.userToken = env.authResponse.params.access_token ∧
    (signIn clientId env s).2.1.userToken ≠ "" ∧
    (signIn clientId env s).2.1.storage.token = some (signIn clientId env s).2.1.userToken ∧
    (signIn clientId env s).2.1.storage.user = (signIn clientId env s).2.1.user := by
  simp [signIn, signInStart, signInWithAuthHeader, signInCommit, signInFinish,
        hok, hprof, htok]

/-- Witness for C1 at a concrete environment and the initial state. -/
theorem signIn_success_commits_session_witness :
    (signIn "cid" sampleEnvOk s0).1 = .ok () ∧
    (signIn "cid" sampleEnvOk s0).2.1.user = some sampleUser ∧
    (signIn "cid" sampleEnvOk s0).2.1.user ≠ none ∧
    (signIn "cid" sampleEnvOk s0).2.1.userToken =
      sampleEnvOk.authResponse.params.access_token ∧
    (signIn "cid" sampleEnvOk s0).2.1.userToken ≠ "" ∧
    (signIn "cid" sampleEnvOk s0).2.1.storage.token =
      some (signIn "cid" sampleEnvOk s0).2.1.userToken ∧
    (signIn "cid" sampleEnvOk s0).2.1.storage.user =
      (signIn "cid" sampleEnvOk s0).2.1.user :=
  signIn_success_commits_session "cid" sampleEnvOk s0 sampleUser rfl rfl
    (by decide)

/-- C2: on startup with a truthy persisted token, when the validation call
succeeds and its `login` equals the persisted user's `login`, the in-memory
token becomes the persisted token and the in-memory user the persisted user,
and the run's trace contains the validation call only — in particular no
interactive authorization (`startAuth`) call. -/
theorem startup_restore_on_login_match (vr : Except String ValidateData)
    (s : AuthState) (t : String) (v : ValidateData) (u : User)
    (ht : s.storage.token = some t) (hne : t ≠ "")
    (hv : vr = .ok v)
    (hu : s.storage.user = some u)
    (hmatch : u.login = v.login) :
    (startupRestore vr s).1.userToken = t ∧
    (startupRestore vr s).1.user = some u ∧
    (startupRestore vr s).2 = [.validate ("OAuth " ++ t)] ∧
    (∀ url, ExtCall.startAuth url ∉ (startupRestore vr s).2) := by
  simp [startupRestore, ht, hne, hv, hu, hmatch]

/-- Witness for C2 at a concrete persisted session and validation response. -/
theorem startup_restore_on_login_match_witness :
    (startupRestore (.ok { login := "ada" }) sStored).1.userToken = "tok123" ∧
    (startupRestore (.ok { login := "ada" }) sStored).1.user = some sampleUser ∧
    (startupRestore (.ok { login := "ada" }) sStored).2 =
      [.validate ("OAuth " ++ "tok123")] ∧
    (∀ url, ExtCall.startAuth url ∉
      (startupRestore (.ok { login := "ada" }) sStored).2) :=
  startup_restore_on_login_match (.ok { login := "ada" }) sStored "tok123"
    { login := "ada" } sampleUser rfl (by decide) rfl rfl rfl

/-- C3: after any `signOut` run — whatever the revocation outcome — the
in-memory user is empty, the token is the empty string, both persisted
entries are absent, and the `Authorization` default header is absent, and it
stays absent after the header-sync effect triggered by the token change. -/
theorem signOut_clears_session (clientId : String) (rv : Except String Unit)
    (s : AuthState) :
    (signOut clientId rv s).1.user = none ∧
    (signOut clientId rv s).1.userToken = "" ∧
    (signOut clientId rv s).1.storage.token = none ∧
    (signOut clientId rv s).1.storage.user = none ∧
    (signOut clientId rv s).1.headers.authorization = none ∧
    (headerSyncEffect clientId (signOut clientId rv s).1).headers.authorization
      = none := by
  simp [signOut, signOutStart, signOutClearLocal, signOutClearStorage,
        signOutFinish, headerSyncEffect]

/-- C4: when the authorization flow returns a non-success result, `signIn`
rejects with the access-denied error and the persisted storage is not
written (it is unchanged). -/
theorem signIn_nonsuccess_rejects_access_denied (clientId : String)
    (env : SignInEnv) (s : AuthState)
    (h : env.authResponse.type ≠ "success") :
    (signIn clientId env s).1 = .error .accessDenied ∧
    (signIn clientId env s).2.1.storage = s.storage := by
  simp [signIn, signInStart, signInFinish, h]

/-- Witness for C4 at a concrete cancelled flow. -/
theorem signIn_nonsuccess_rejects_access_denied_witness :
    (signIn "cid" { sampleEnvOk with
        authResponse := { sampleAuthOk with type := "cancel" } } s0).1
      = .error .accessDenied ∧
    (signIn "cid" { sampleEnvOk with
        authResponse := { sampleAuthOk with type := "cancel" } } s0).2.1.storage
      = s0.storage :=
  signIn_nonsuccess_rejects_access_denied "cid"
    { sampleEnvOk with authResponse := { sampleAuthOk with type := "cancel" } }
    s0 (by decide)

/-- C5: when the authorization flow succeeds but the profile request fails,
`signIn` rejects with the profile-fetch error wrapping the underlying cause,
and the persisted storage is not written (it is unchanged). -/
theorem signIn_profile_failure_rejects (clientId : String) (env : SignInEnv)
    (s : AuthState) (e : String)
    (hok : env.authResponse.type = "success")
    (hprof : env.profileResult = .error e) :
    (signIn clientId env s).1 = .error (.profileFetch e) ∧
    (signIn clientId env s).2.1.storage = s.storage := by
  simp [signIn, signInStart, signInWithAuthHeader, signInFinish, hok, hprof]

/-- Witness for C5 at a concrete failing profile request. -/
theorem signIn_profile_failure_rejects_witness :
    (signIn "cid" { sampleEnvOk with profileResult := .error "net down" } s0).1
      = .error (.profileFetch "net down") ∧
    (signIn "cid" { sampleEnvOk with profileResult := .error "net down" } s0).2.1.storage
      = s0.storage :=
  signIn_profile_failure_rejects "cid"
    { sampleEnvOk with profileResult := .error "net down" } s0 "net down" rfl rfl

/-- C6: two `signIn` runs whose successful authorization responses differ
only in the returned `state` parameter have identical outcomes — result,
post-state and trace: the returned state is never read (the CSRF comparison
against the generated `STATE` is commented out). -/
theorem signIn_ignores_returned_state (clientId : String) (env : SignInEnv)
    (σ : String) (s : AuthState)
    (hok : env.authResponse.type = "success") :
    signIn clientId
      { env with authResponse := { env.authResponse with
          params := { env.authResponse.params with state := σ } } } s
      = signIn clientId env s := by
  cases hp : env.profileResult <;>
    simp [signIn, signInStart, signInWithAuthHeader, signInCommit,
          signInFinish, hok, hp]

/-- Witness for C6: a run whose returned state is replaced wholesale agrees
with the original run. -/
theorem signIn_ignores_returned_state_witness :
    signIn "cid"
      { sampleEnvOk with authResponse := { sampleEnvOk.authResponse with
          params := { sampleEnvOk.authResponse.params with state := "other" } } } s0
      = signIn "cid" sampleEnvOk s0 :=
  signIn_ignores_returned_state "cid" sampleEnvOk "other" s0 rfl

/-- C7: the both-present-or-both-absent invariant on the in-memory `user` and
`userToken` is preserved by the resolved state of every `signIn` run (whose
success result, per the implicit-grant contract, carries a non-empty token),
every `signOut` run, and every startup-restore run. -/
theorem session_consistency_preserved (clientId : String) (env : SignInEnv)
    (rv : Except String Unit) (vr : Except String ValidateData) (s : AuthState)
    (hs : sessionConsistent s)
    (htok : env.authResponse.type = "success" →
      env.authResponse.params.access_token ≠ "") :
    sessionConsistent (signIn clientId env s).2.1 ∧
    sessionConsistent (signOut clientId rv s).1 ∧
    sessionConsistent (startupRestore vr s).1 := by
  unfold sessionConsistent at hs ⊢
  refine ⟨?_, ?_, ?_⟩
  · by_cases hty : env.authResponse.type = "success"
    · cases hp : env.profileResult with
      | ok u =>
          simp [signIn, signInStart, signInWithAuthHeader, signInCommit,
                signInFinish, hty, hp, htok hty]
      | error e =>
          simpa [signIn, signInStart, signInWithAuthHeader, signInFinish,
                 hty, hp] using hs
    · simpa [signIn, signInStart, signInFinish, hty] using hs
  · simp [signOut, signOutStart, signOutClearLocal, signOutClearStorage,
          signOutFinish]
  · match htk : s.storage.token with
    | none => simpa [startupRestore, htk] using hs
    | some t =>
      by_cases hte : t = ""
      · simpa [startupRestore, htk, hte] using hs
      · cases hv : vr with
        | error e => simp [startupRestore, htk, hte, hv]
        | ok v =>
          by_cases hm : s.storage.user.map User.login = some v.login
          · match hus : s.storage.user with
            | some u => simp [startupRestore, htk, hte, hv, hus ▸ hm, hus, hte]
            | none => simp [hus] at hm
          · simpa [startupRestore, htk, hte, hv, hm] using hs

/-- Witness for C7 at the initial state and the sample environment. -/
theorem session_consistency_preserved_witness :
    sessionConsistent (signIn "cid" sampleEnvOk s0).2.1 ∧
    sessionConsistent (signOut "cid" (.ok ()) s0).1 ∧
    sessionConsistent (startupRestore (.ok { login := "ada" }) s0).1 :=
  session_consistency_preserved "cid" sampleEnvOk (.ok ())
    (.ok { login := "ada" }) s0 (by decide) (by decide)

/-- C8: on startup with a truthy persisted token whose validation call fails,
the in-memory user and token end up empty and both persisted entries are
removed. -/
theorem startup_validation_failure_clears (vr : Except String ValidateData)
    (s : AuthState) (t : String) (e : String)
    (ht : s.storage.token = some t) (hne : t ≠ "")
    (hv : vr = .error e) :
    (startupRestore vr s).1.user = none ∧
    (startupRestore vr s).1.userToken = "" ∧
    (startupRestore vr s).1.storage.token = none ∧
    (startupRestore vr s).1.storage.user = none := by
  simp [startupRestore, ht, hne, hv]

/-- Witness for C8 at a concrete persisted session and a failing validation
call. -/
theorem startup_validation_failure_clears_witness :
    (startupRestore (.error "expired") sStored).1.user = none ∧
    (startupRestore (.error "expired") sStored).1.userToken = "" ∧
    (startupRestore (.error "expired") sStored).1.storage.token = none ∧
    (startupRestore (.error "expired") sStored).1.storage.user = none :=
  startup_validation_failure_clears (.error "expired") sStored "tok123"
    "expired" rfl (by decide) rfl

/-- C9: on every path of `signIn` and `signOut`, the matching in-flight flag
is true at every suspension point of the run and false in the resolved state,
and neither operation disturbs the other operation's flag. -/
theorem loading_flags_lifecycle (clientId : String) (env : SignInEnv)
    (rv : Except String Unit) (s : AuthState) :
    (signInPending env s).all (·.isLoggingIn) = true ∧
    (signIn clientId env s).2.1.isLoggingIn = false ∧
    (signIn clientId env s).2.1.isLoggingOut = s.isLoggingOut ∧
    (signOutPending s).all (·.isLoggingOut) = true ∧
    (signOut clientId rv s).1.isLoggingOut = false ∧
    (signOut clientId rv s).1.isLoggingIn = s.isLoggingIn := by
  refine ⟨?_, ?_, ?_, ?_, ?_, ?_⟩ <;>
  · by_cases hty : env.authResponse.type = "success" <;>
      cases hp : env.profileResult <;>
        simp [signIn, signInPending, signInStart, signInWithAuthHeader,
              signInCommit, signInFinish, signOut, signOutPending,
              signOutStart, signOutClearLocal, signOutClearStorage,
              signOutFinish, hty, hp]

/-- C10: when the authorization flow succeeds but the profile request fails,
the rejected `signIn` run leaves the default `Authorization` header carrying
the newly obtained bearer token, while the in-memory session and the
persisted entries are unchanged. -/
theorem signIn_profile_failure_keeps_auth_header (clientId : String)
    (env : SignInEnv) (s : AuthState) (e : String)
    (hok : env.authResponse.type = "success")
    (hprof : env.profileResult = .error e) :
    (signIn clientId env s).1 = .error (.profileFetch e) ∧
    (signIn clientId env s).2.1.headers.authorization =
      some ("Bearer " ++ env.authResponse.params.access_token) ∧
    (signIn clientId env s).2.1.user = s.user ∧
    (signIn clientId env s).2.1.userToken = s.userToken ∧
    (signIn clientId env s).2.1.storage = s.storage := by
  simp [signIn, signInStart, signInWithAuthHeader, signInFinish, hok, hprof]

/-- Witness for C10 at a concrete failing profile request: the header keeps
the token obtained from the flow. -/
theorem signIn_profile_failure_keeps_auth_header_witness :
    (signIn "cid" { sampleEnvOk with profileResult := .error "boom" } s0).1
      = .error (.profileFetch "boom") ∧
    (signIn "cid" { sampleEnvOk with profileResult := .error "boom" } s0).2.1.headers.authorization
      = some ("Bearer " ++ sampleAuthOk.params.access_token) ∧
    (signIn "cid" { sampleEnvOk with profileResult := .error "boom" } s0).2.1.user
      = s0.user ∧
    (signIn "cid" { sampleEnvOk with profileResult := .error "boom" } s0).2.1.userToken
      = s0.userToken ∧
    (signIn "cid" { sampleEnvOk with profileResult := .error "boom" } s0).2.1.storage
      = s0.storage :=
  signIn_profile_failure_keeps_auth_header "cid"
    { sampleEnvOk with profileResult := .error "boom" } s0 "boom" rfl rfl

end UseAuth
